import Mathlib

/-!
Shallow embedding of `src/problems/shared/ros/VrepHelper.cpp` (class
`VrepHelper` of the tapir repository): a thin adapter over the V-REP
simulator's ROS services, plus a subscription callback that tracks the
simulator's run state.

Modelling choices, each forced by the source:
* Each ROS service client is a function from request to response, gathered
  in a `VrepEnv` record; `ros::package::getPath` is one more function.
  Coordinates (C++ `float`) and poses (`geometry_msgs::PoseStamped`) are
  pure pass-through data in the source, so they are type parameters.
* The adapter's mutable state is the `running_` flag together with the
  `/vrep/info` subscription queue, which `subscribe("/vrep/info", 1, ...)`
  creates with capacity 1, so it holds at most one pending message
  (`Option VrepInfo`); a newly arriving message displaces the old one.
  `ros::spinOnce()` drains the queue through the callback.
* Every operation is explicit state passing `VrepEnv → VrepHelper → ...`,
  returning its result together with the post-state.
* `copyObject` indexes `newObjectHandles[0]`, which in C++ is undefined on
  an empty vector; the total embedding returns `Option Int` (`List.head?`).
-/

/-- Wrapped integer in the style of std_msgs, as in `msg->simulatorState.data`. -/
structure Int32Msg where
  data : Int
  deriving DecidableEq, Repr

/-- The `/vrep/info` message; only the `simulatorState` field is read. -/
structure VrepInfo where
  simulatorState : Int32Msg
  deriving DecidableEq, Repr

/-- Point message (geometry_msgs::Point) with coordinate type `α` (C++ `float`). -/
structure Point (α : Type) where
  x : α
  y : α
  z : α

/-- Request of `simRosGetObjectHandle`. -/
structure GetObjectHandleRequest where
  objectName : String

/-- Response of `simRosGetObjectHandle`. -/
structure GetObjectHandleResponse where
  handle : Int

/-- Request of `simRosSetObjectPosition`. -/
structure SetObjectPositionRequest (α : Type) where
  handle : Int
  relativeToObjectHandle : Int
  position : Point α

/-- Response carrying only a `result` code (`simRosStartSimulation`,
`simRosStopSimulation`, `simRosSetObjectPosition`, `simRosLoadScene`). -/
structure ResultResponse where
  result : Int

/-- Request of `simRosCopyPasteObjects`. -/
structure CopyPasteObjectsRequest where
  objectHandles : List Int

/-- Response of `simRosCopyPasteObjects`. -/
structure CopyPasteObjectsResponse where
  newObjectHandles : List Int

/-- Request of `simRosGetObjectPose`. -/
structure GetObjectPoseRequest where
  handle : Int
  relativeToObjectHandle : Int

/-- Response of `simRosGetObjectPose`; the pose type `π` stands for
`geometry_msgs::PoseStamped`, which the adapter never inspects. -/
structure GetObjectPoseResponse (π : Type) where
  pose : π

/-- Request of `simRosLoadScene`. -/
structure LoadSceneRequest where
  fileName : String

/-- The remote side: the seven V-REP ROS services the adapter calls
(each `client.call(srv)` fills the response from the request) and
`ros::package::getPath`. -/
structure VrepEnv (α π : Type) where
  startService : Unit → ResultResponse
  stopService : Unit → ResultResponse
  handleService : GetObjectHandleRequest → GetObjectHandleResponse
  moveService : SetObjectPositionRequest α → ResultResponse
  copyService : CopyPasteObjectsRequest → CopyPasteObjectsResponse
  poseService : GetObjectPoseRequest → GetObjectPoseResponse π
  loadService : LoadSceneRequest → ResultResponse
  packagePath : String → String

/-- The adapter's mutable state: the run-state flag and the capacity-1
subscription queue of `/vrep/info`. -/
structure VrepHelper where
  running_ : Bool
  queue : Option VrepInfo
  deriving DecidableEq, Repr

namespace VrepHelper

/-- Default constructor `VrepHelper()`: initializes `running_(false)`;
no subscription exists yet, so the queue is empty. -/
def init : VrepHelper := { running_ := false, queue := none }

/-- Constructor `VrepHelper(ros::NodeHandle*)`: initializes
`running_(false)` and calls `setRosNode`, which wires the service clients
(modelled by `VrepEnv`) and subscribes to `/vrep/info` with an empty
capacity-1 queue. -/
def initWithNode : VrepHelper := { running_ := false, queue := none }

/-- Arrival of a `/vrep/info` message on the capacity-1 subscription
queue: it displaces any message still pending. -/
def deliver (s : VrepHelper) (msg : VrepInfo) : VrepHelper :=
  { s with queue := some msg }

/-- Embedding of VrepHelper::infoCallback: `running_ = (msg->simulatorState.data == 1)`. -/
def infoCallback (s : VrepHelper) (msg : VrepInfo) : VrepHelper :=
  { s with running_ := msg.simulatorState.data == 1 }

/-- Embedding of ros::spinOnce(): run the callback on the pending message, if any,
leaving the queue empty. -/
def spinOnce (s : VrepHelper) : VrepHelper :=
  match s.queue with
  | none => s
  | some m => { s.infoCallback m with queue := none }

/-- The messages pending in the subscription queue, oldest first
(at most one, the queue having capacity 1). -/
def pendingMsgs (s : VrepHelper) : List VrepInfo :=
  s.queue.toList

/-- Embedding of VrepHelper::start: call `simRosStartSimulation`,
return `response.result != -1`. -/
def start (env : VrepEnv α π) (s : VrepHelper) : Bool × VrepHelper :=
  let resp := env.startService ()
  (resp.result != -1, s)

/-- Embedding of VrepHelper::stop: call `simRosStopSimulation`,
return `response.result != -1`. -/
def stop (env : VrepEnv α π) (s : VrepHelper) : Bool × VrepHelper :=
  let resp := env.stopService ()
  (resp.result != -1, s)

/-- Embedding of VrepHelper::getHandle: call `simRosGetObjectHandle` on the name,
return `response.handle` (which is `-1` on failure). -/
def getHandle (env : VrepEnv α π) (s : VrepHelper) (name : String) :
    Int × VrepHelper :=
  let resp := env.handleService { objectName := name }
  (resp.handle, s)

/-- The request `VrepHelper::moveObject(long, float, float, float)`
builds: position from the coordinates, `relativeToObjectHandle = -1`. -/
def moveRequest (handle : Int) (x y z : α) : SetObjectPositionRequest α :=
  { handle := handle
    relativeToObjectHandle := -1
    position := { x := x, y := y, z := z } }

/-- Embedding of VrepHelper::moveObject(long, float, float, float): call
`simRosSetObjectPosition`, return `response.result != -1`. -/
def moveObject (env : VrepEnv α π) (s : VrepHelper) (handle : Int)
    (x y z : α) : Bool × VrepHelper :=
  let resp := env.moveService (moveRequest handle x y z)
  (resp.result != -1, s)

/-- Embedding of VrepHelper::moveObject(std::string, float, float, float): resolve
the handle with `getHandle`, then move by handle. -/
def moveObjectByName (env : VrepEnv α π) (s : VrepHelper) (name : String)
    (x y z : α) : Bool × VrepHelper :=
  let r := getHandle env s name
  moveObject env r.2 r.1 x y z

/-- Embedding of VrepHelper::copyObject: call `simRosCopyPasteObjects` on the
one-element handle list and read `response.newObjectHandles[0]`; the
out-of-bounds read on an empty vector is undefined in C++, so the total
embedding yields `none` there. -/
def copyObject (env : VrepEnv α π) (s : VrepHelper) (handle : Int) :
    Option Int × VrepHelper :=
  let resp := env.copyService { objectHandles := [handle] }
  (resp.newObjectHandles.head?, s)

/-- The request `VrepHelper::getPose` builds: the handle and
`relativeToObjectHandle = -1`. -/
def poseRequest (handle : Int) : GetObjectPoseRequest :=
  { handle := handle, relativeToObjectHandle := -1 }

/-- Embedding of VrepHelper::getPose: call `simRosGetObjectPose`,
return `response.pose`. -/
def getPose (env : VrepEnv α π) (s : VrepHelper) (handle : Int) :
    π × VrepHelper :=
  let resp := env.poseService (poseRequest handle)
  (resp.pose, s)

/-- Embedding of VrepHelper::isRunning: `ros::spinOnce();` then `return running_;`. -/
def isRunning (s : VrepHelper) : Bool × VrepHelper :=
  let s' := s.spinOnce
  (s'.running_, s')

/-- Embedding of VrepHelper::loadScene(std::string): call `simRosLoadScene` on the
absolute path, return `response.result == 1`. -/
def loadScene (env : VrepEnv α π) (s : VrepHelper) (fullPath : String) :
    Bool × VrepHelper :=
  let resp := env.loadService { fileName := fullPath }
  (resp.result == 1, s)

/-- Embedding of VrepHelper::loadScene(std::string, std::string, std::string): build
`<package path>/problems/<problemName>/<relativePath>` and load it. -/
def loadSceneRel (env : VrepEnv α π) (s : VrepHelper)
    (problemName relativePath packageName : String) : Bool × VrepHelper :=
  let problemPath := env.packagePath packageName ++ "/problems/" ++ problemName
  let fullPath := problemPath ++ "/" ++ relativePath
  loadScene env s fullPath

end VrepHelper

/-- A concrete mocked remote service used to check theorems on explicit
inputs: handle lookup maps a name to its length, copy echoes the request
handles, start succeeds with code 2, and scene loading answers code 0. -/
def envC : VrepEnv Int Int where
  startService := fun _ => { result := 2 }
  stopService := fun _ => { result := 3 }
  handleService := fun r => { handle := (r.objectName.length : Int) }
  moveService := fun _ => { result := 0 }
  copyService := fun r => { newObjectHandles := r.objectHandles }
  poseService := fun r => { pose := r.handle }
  loadService := fun _ => { result := 0 }
  packagePath := fun p => "/opt/ros/" ++ p

namespace VrepHelper

/-- The queue of the state after a fold of `infoCallback` is the starting
queue: the callback only writes `running_`. -/
lemma foldl_infoCallback_queue (s : VrepHelper) (msgs : List VrepInfo) :
    (msgs.foldl infoCallback s).queue = s.queue := by
  induction msgs generalizing s with
  | nil => rfl
  | cons hd tl ih => exact ih (s.infoCallback hd)

/-- With no pending message, `spinOnce` is the identity. -/
lemma spinOnce_of_queue_none (s : VrepHelper) (hq : s.queue = none) :
    s.spinOnce = s := by
  unfold spinOnce
  rw [hq]

/-- Folding `infoCallback` over a nonempty message list sets `running_`
from the last message alone. -/
lemma foldl_infoCallback_running (s : VrepHelper) (hd : VrepInfo)
    (tl : List VrepInfo) :
    ((hd :: tl).foldl infoCallback s).running_
      = (((hd :: tl).getLast (List.cons_ne_nil hd tl)).simulatorState.data == 1) := by
  induction tl generalizing s hd with
  | nil => rfl
  | cons h2 t ih =>
      rw [List.foldl_cons, List.getLast_cons (List.cons_ne_nil h2 t)]
      exact ih (s.infoCallback hd) h2

end VrepHelper

/-- Variant of the mocked service whose handle lookup answers 5. -/
def envA : VrepEnv Int Int :=
  { envC with handleService := fun _ => { handle := 5 } }

/-- Variant of the mocked service whose handle lookup answers 7. -/
def envB : VrepEnv Int Int :=
  { envC with handleService := fun _ => { handle := 7 } }

/-- C1 (counterexample): with the mocked remote service answering result
code 0 to the scene-load call, `loadScene` returns `false`, not the
boolean `(0 != -1) = true` that the claim predicts for every
boolean-returning wrapper operation. -/
theorem loadScene_defies_result_ne_neg_one :
    ¬ ((VrepHelper.loadScene envC VrepHelper.init "scene.ttt").1
        = ((envC.loadService { fileName := "scene.ttt" }).result != -1)) := by
  decide

/-- C1 (amended): for every result code returned by the mocked remote
service, `start`, `stop` and `moveObject` return the boolean
`(result != -1)`, while `loadScene` returns the boolean `(result == 1)`. -/
theorem boolean_ops_return_sentinel_tests {α π : Type} (env : VrepEnv α π)
    (s : VrepHelper) (h : Int) (x y z : α) (p : String) :
    (VrepHelper.start env s).1 = ((env.startService ()).result != -1)
    ∧ (VrepHelper.stop env s).1 = ((env.stopService ()).result != -1)
    ∧ (VrepHelper.moveObject env s h x y z).1
        = ((env.moveService (VrepHelper.moveRequest h x y z)).result != -1)
    ∧ (VrepHelper.loadScene env s p).1
        = ((env.loadService { fileName := p }).result == 1) :=
  ⟨rfl, rfl, rfl, rfl⟩

/-- C2 (counterexample): `getHandle` does not surface failure as a boolean
return value: its return value is the handle itself, so two calls whose
sentinel tests (`handle = -1`) agree can still return different values
(5 versus 7), which no boolean-valued report could do. -/
theorem getHandle_not_a_boolean_report :
    ¬ (∀ (env1 env2 : VrepEnv Int Int) (s : VrepHelper) (name : String),
        (((VrepHelper.getHandle env1 s name).1 = -1)
          ↔ ((VrepHelper.getHandle env2 s name).1 = -1)) →
        (VrepHelper.getHandle env1 s name).1
          = (VrepHelper.getHandle env2 s name).1) := by
  intro hcl
  have h1 := hcl envA envB VrepHelper.init "obj" (by decide)
  exact absurd h1 (by decide)

/-- C2 (amended): the Bool-returning operations (start, stop, moveObject,
loadScene) report failure only through a single sentinel comparison on the
response's result code, surfaced as the boolean return; `getHandle`
instead returns the response handle itself, whose failure sentinel is the
value -1; `copyObject` and `getPose` pass the response data to the caller
with no boolean failure signal. -/
theorem failure_reporting_shapes {α π : Type} (env : VrepEnv α π)
    (s : VrepHelper) (name p : String) (h hc hp : Int) (x y z : α) :
    (VrepHelper.start env s).1 = ((env.startService ()).result != -1)
    ∧ (VrepHelper.stop env s).1 = ((env.stopService ()).result != -1)
    ∧ (VrepHelper.moveObject env s h x y z).1
        = ((env.moveService (VrepHelper.moveRequest h x y z)).result != -1)
    ∧ (VrepHelper.loadScene env s p).1
        = ((env.loadService { fileName := p }).result == 1)
    ∧ (VrepHelper.getHandle env s name).1
        = (env.handleService { objectName := name }).handle
    ∧ (VrepHelper.copyObject env s hc).1
        = (env.copyService { objectHandles := [hc] }).newObjectHandles.head?
    ∧ (VrepHelper.getPose env s hp).1
        = (env.poseService (VrepHelper.poseRequest hp)).pose :=
  ⟨rfl, rfl, rfl, rfl, rfl, rfl, rfl⟩

/-- C3: after any nonempty sequence of delivered info messages (the
callback run once per message), `running_` is true iff the most recent
message's simulatorState equals 1, and on that drained state `isRunning`
returns exactly this flag. -/
theorem running_reflects_last_status (s : VrepHelper) (hq : s.queue = none)
    (msgs : List VrepInfo) (hne : msgs ≠ []) :
    (msgs.foldl VrepHelper.infoCallback s).running_
        = ((msgs.getLast hne).simulatorState.data == 1)
    ∧ (VrepHelper.isRunning (msgs.foldl VrepHelper.infoCallback s)).1
        = (msgs.foldl VrepHelper.infoCallback s).running_ := by
  constructor
  · cases msgs with
    | nil => exact absurd rfl hne
    | cons hd tl => exact VrepHelper.foldl_infoCallback_running s hd tl
  · have hq' : (msgs.foldl VrepHelper.infoCallback s).queue = none := by
      rw [VrepHelper.foldl_infoCallback_queue]
      exact hq
    show ((msgs.foldl VrepHelper.infoCallback s).spinOnce).running_ = _
    rw [VrepHelper.spinOnce_of_queue_none _ hq']

/-- C3 (witness): a concrete run with messages of states 0 then 1. -/
theorem running_reflects_last_status_witness :
    (([⟨⟨0⟩⟩, ⟨⟨1⟩⟩] : List VrepInfo).foldl VrepHelper.infoCallback
          VrepHelper.init).running_
        = ((([⟨⟨0⟩⟩, ⟨⟨1⟩⟩] : List VrepInfo).getLast
            (by decide)).simulatorState.data == 1)
    ∧ (VrepHelper.isRunning (([⟨⟨0⟩⟩, ⟨⟨1⟩⟩] : List VrepInfo).foldl
          VrepHelper.infoCallback VrepHelper.init)).1
        = (([⟨⟨0⟩⟩, ⟨⟨1⟩⟩] : List VrepInfo).foldl VrepHelper.infoCallback
            VrepHelper.init).running_ :=
  running_reflects_last_status VrepHelper.init rfl [⟨⟨0⟩⟩, ⟨⟨1⟩⟩] (by decide)

/-- C4: `isRunning` drains the pending notification deliveries (the
subscription queue) before reading the run-state flag: its result is the
flag after folding the callback over the pending messages, its post-state
is exactly the spun state, and afterwards no delivery is pending. -/
theorem isRunning_drains_pending (s : VrepHelper) :
    (VrepHelper.isRunning s).1
        = ((VrepHelper.pendingMsgs s).foldl VrepHelper.infoCallback s).running_
    ∧ (VrepHelper.isRunning s).2.queue = none
    ∧ (VrepHelper.isRunning s).2 = s.spinOnce := by
  obtain ⟨r, q⟩ := s
  cases q <;> exact ⟨rfl, rfl, rfl⟩

/-- C5: the by-name move operation is exactly handle resolution followed
by the by-handle move on the same state: the handle passed on is the one
`getHandle` returns. -/
theorem moveObjectByName_resolves_then_moves {α π : Type}
    (env : VrepEnv α π) (s : VrepHelper) (name : String) (x y z : α) :
    VrepHelper.moveObjectByName env s name x y z
      = VrepHelper.moveObject env s (VrepHelper.getHandle env s name).1 x y z :=
  rfl

/-- C6: each lookup method returns exactly one field of the remote
response: `getHandle` the handle field, `getPose` the pose field, and
`copyObject` element 0 of the newObjectHandles field (as an Option,
covering the out-of-bounds case), with no other transformation. -/
theorem methods_extract_one_response_field {α π : Type} (env : VrepEnv α π)
    (s : VrepHelper) (name : String) (h hc : Int) :
    (VrepHelper.getHandle env s name).1
        = (env.handleService { objectName := name }).handle
    ∧ (VrepHelper.getPose env s h).1
        = (env.poseService (VrepHelper.poseRequest h)).pose
    ∧ (VrepHelper.copyObject env s hc).1
        = (env.copyService { objectHandles := [hc] }).newObjectHandles.head? :=
  ⟨rfl, rfl, rfl⟩

/-- C7: package-relative scene loading reduces to absolute-path loading of
the package path concatenated with "/problems/", the problem name, "/"
and the relative path, in that order. -/
theorem loadScene_relative_reduces_to_absolute {α π : Type}
    (env : VrepEnv α π) (s : VrepHelper) (pn rp pkg : String) :
    VrepHelper.loadSceneRel env s pn rp pkg
      = VrepHelper.loadScene env s
          (env.packagePath pkg ++ "/problems/" ++ pn ++ "/" ++ rp) :=
  rfl

/-- C8: `copyObject` unconditionally reads element 0 of the response's
newObjectHandles list — its result is `head?` of that list — so in the
total Option-valued embedding the result is defined (`isSome`) exactly
when the remote service answers a nonempty list, and for an empty
response list the result is `none`: the operation has no defined result
there (the out-of-bounds case in C++). -/
theorem copyObject_defined_iff_nonempty {α π : Type} (env : VrepEnv α π)
    (s : VrepHelper) (h : Int) :
    (VrepHelper.copyObject env s h).1
        = (env.copyService { objectHandles := [h] }).newObjectHandles.head?
    ∧ ((VrepHelper.copyObject env s h).1 = none
        ↔ (env.copyService { objectHandles := [h] }).newObjectHandles = [])
    ∧ ((VrepHelper.copyObject env s h).1.isSome
        ↔ (env.copyService { objectHandles := [h] }).newObjectHandles ≠ []) := by
  refine ⟨rfl, List.head?_eq_none_iff, ?_⟩
  rw [Option.isSome_iff_ne_none, ne_eq]
  show ¬ (env.copyService { objectHandles := [h] }).newObjectHandles.head? = none ↔ _
  rw [List.head?_eq_none_iff]

/-- C9: position and pose requests always use the absolute frame: the
requests `moveObject` (by handle) and `getPose` send carry
`relativeToObjectHandle = -1`, and the operations call their services on
exactly these requests. -/
theorem requests_use_absolute_frame {α π : Type} (env : VrepEnv α π)
    (s : VrepHelper) (h hp : Int) (x y z : α) :
    (VrepHelper.moveRequest h x y z).relativeToObjectHandle = -1
    ∧ (VrepHelper.poseRequest hp).relativeToObjectHandle = -1
    ∧ VrepHelper.moveObject env s h x y z
        = ((env.moveService (VrepHelper.moveRequest h x y z)).result != -1, s)
    ∧ VrepHelper.getPose env s hp
        = ((env.poseService (VrepHelper.poseRequest hp)).pose, s) :=
  ⟨rfl, rfl, rfl, rfl⟩

/-- C10: both constructors initialize the run-state flag to false,
`isRunning` on a fresh state returns false, and every operation other
than the info callback leaves the flag unchanged. -/
theorem only_infoCallback_touches_running {α π : Type} (env : VrepEnv α π)
    (s : VrepHelper) (name p pn rp pkg : String) (hm hc hp : Int)
    (x y z : α) :
    VrepHelper.init.running_ = false
    ∧ VrepHelper.initWithNode.running_ = false
    ∧ (VrepHelper.isRunning VrepHelper.init).1 = false
    ∧ (VrepHelper.start env s).2.running_ = s.running_
    ∧ (VrepHelper.stop env s).2.running_ = s.running_
    ∧ (VrepHelper.getHandle env s name).2.running_ = s.running_
    ∧ (VrepHelper.moveObject env s hm x y z).2.running_ = s.running_
    ∧ (VrepHelper.moveObjectByName env s name x y z).2.running_ = s.running_
    ∧ (VrepHelper.copyObject env s hc).2.running_ = s.running_
    ∧ (VrepHelper.getPose env s hp).2.running_ = s.running_
    ∧ (VrepHelper.loadScene env s p).2.running_ = s.running_
    ∧ (VrepHelper.loadSceneRel env s pn rp pkg).2.running_ = s.running_ :=
  ⟨rfl, rfl, rfl, rfl, rfl, rfl, rfl, rfl, rfl, rfl, rfl, rfl⟩
